import Mathlib

/-!
Shallow embedding of the `w800rf32_security` frame decoders.

A frame is a list of byte values (each in 0..255).  The repository holds
two independent security-sensor parsers and two independent X10 decoders:

* `SecuritySensorParser` in `src/__init__.py` — validates the function
  byte against mask 0x85 and reads the min_delay bit from byte 2
  (comment in the source: "FIXED: was data[1] & 0x10");
* `SecuritySensorParser` in `src/w800lib/security_parser.py` — no mask
  validation, min_delay read from byte 1;
* `X10Event` in `src/__init__.py` — the bit-reversal, table-driven
  decoder copied from pyW800rf32;
* `W800rf32._parse_standard_x10` in `src/w800lib/__init__.py` — the
  simplified nibble-extraction decoder.

Definitions below are transcribed from those functions; names follow the
source where Lean allows it.
-/

namespace W800

set_option maxRecDepth 10000

/-- Python formatting of `x` as an 8-character binary string followed by
string reversal and re-parsing, as done in `X10Event._get_x10code_and_cmd`:
for a byte value this reverses the order of the 8 bits. -/
def reverseBits8 (x : Nat) : Nat :=
  (((x >>> 0) &&& 1) <<< 7) |||
  (((x >>> 1) &&& 1) <<< 6) |||
  (((x >>> 2) &&& 1) <<< 5) |||
  (((x >>> 3) &&& 1) <<< 4) |||
  (((x >>> 4) &&& 1) <<< 3) |||
  (((x >>> 5) &&& 1) <<< 2) |||
  (((x >>> 6) &&& 1) <<< 1) |||
  (((x >>> 7) &&& 1) <<< 0)

/-- House code lookup table `X10Event.hcodeDict`.  The Python dict covers
all 16 residues of `b3 & 0x0f`; the catch-all arm is unreachable for the
decoder's inputs. -/
def hcodeDict (n : Nat) : Char :=
  match n with
  | 0b0110 => 'A' | 0b1110 => 'B' | 0b0010 => 'C' | 0b1010 => 'D'
  | 0b0001 => 'E' | 0b1001 => 'F' | 0b0101 => 'G' | 0b1101 => 'H'
  | 0b0111 => 'I' | 0b1111 => 'J' | 0b0011 => 'K' | 0b1011 => 'L'
  | 0b0000 => 'M' | 0b1000 => 'N' | 0b0100 => 'O' | 0b1100 => 'P'
  | _ => 'M'

/-- Result of `X10Event`: house letter, unit number, and the command
string, which stays `none` when no branch of the command dispatch in
`_get_x10code_and_cmd` fires (Python leaves `self.command = None`). -/
structure X10Ev where
  house : Char
  unit : Nat
  command : Option String
  deriving Repr, DecidableEq

/-- `X10Event._get_x10code_and_cmd` from `src/__init__.py`.  Python's
local `b3` is the bit-reversal of byte 0 and `b1` the bit-reversal of
byte 2. -/
def getX10CodeAndCmd (d0 d2 : Nat) : X10Ev :=
  let b3 := reverseBits8 d0
  let b1 := reverseBits8 d2
  let house_code := hcodeDict (b3 &&& 0x0f)
  let x := b1 >>> 3
  let x1 := (b1 &&& 0x02) <<< 1
  let y := (b3 &&& 0x20) >>> 2
  let unit_number := x + x1 + y + 1
  if b1 = 0x19 then ⟨house_code, unit_number, some "Off"⟩
  else if b1 = 0x11 then ⟨house_code, unit_number + 1, some "On"⟩
  else if b1 &&& 0x05 = 4 then ⟨house_code, unit_number, some "Off"⟩
  else if b1 &&& 0x05 = 0 then ⟨house_code, unit_number, some "On"⟩
  else ⟨house_code, unit_number, none⟩

/-- `X10Event.__init__` from `src/__init__.py`: length check, checksum
check (raising `ValueError`, modelled as `Except.error`), then the
field extraction. -/
def decodeX10 (data : List Nat) : Except String X10Ev :=
  if data.length ≠ 4 then
    Except.error "X10 packet must be 4 bytes"
  else if data.getD 0 0 + data.getD 1 0 ≠ 0xFF ∨ data.getD 2 0 + data.getD 3 0 ≠ 0xFF then
    Except.error "Invalid X10 packet - checksum failed"
  else
    Except.ok (getX10CodeAndCmd (data.getD 0 0) (data.getD 2 0))

/-- Security event record, shared shape of both parsers' result dicts. -/
structure SecEv where
  device_type : String
  address : String
  state : String
  low_battery : Bool
  min_delay : Bool
  deriving Repr, DecidableEq

/-- Python's `x & ~m` for non-negative `x`: the bits of `x` outside `m`. -/
def andNot (x m : Nat) : Nat := x ^^^ (x &&& m)

/-- Python's `"\x7b:02x\x7d".format(n)`: lowercase hex digits of `n`,
left-padded with zeros to width 2. -/
def format02x (n : Nat) : String :=
  let ds := Nat.toDigits 16 n
  if ds.length < 2 then String.mk ('0' :: ds) else String.mk ds

/-- `SecuritySensorParser.is_security_packet`, identical in both copies:
length 4 and matching high nibbles of bytes 0 and 1. -/
def isSecurityPacket (data : List Nat) : Bool :=
  if data.length ≠ 4 then false
  else (((data.getD 0 0) >>> 4) &&& 0x0F) == (((data.getD 1 0) >>> 4) &&& 0x0F)

/-- `SecuritySensorParser.parse` from `src/__init__.py`: rejects frames
whose function byte has bits outside mask 0x85, and reads the min_delay
bit from byte 2. -/
def securityParse (data : List Nat) : Option SecEv :=
  if ¬ isSecurityPacket data then none
  else
    let b0 := data.getD 0 0
    let b1 := data.getD 1 0
    let b2 := data.getD 2 0
    if andNot b2 0x85 ≠ 0 then none
    else
      let address := ((b0 &&& 0x0F) <<< 4) ||| (b1 &&& 0x0F)
      some
        { device_type := "ds10a"
          address := format02x address
          state := if b2 &&& 0x80 != 0 then "closed" else "open"
          low_battery := b2 &&& 0x01 != 0
          min_delay := ! (b2 &&& 0x10 != 0) }

/-- `SecuritySensorParser.parse` from `src/w800lib/security_parser.py`:
no function-byte mask validation, and the min_delay bit is read from
byte 1, not byte 2. -/
def w800SecurityParse (data : List Nat) : Option SecEv :=
  if ¬ isSecurityPacket data then none
  else
    let b0 := data.getD 0 0
    let b1 := data.getD 1 0
    let b2 := data.getD 2 0
    let address := ((b0 &&& 0x0F) <<< 4) ||| (b1 &&& 0x0F)
    some
      { device_type := "ds10a"
        address := format02x address
        state := if b2 &&& 0x80 != 0 then "closed" else "open"
        low_battery := b2 &&& 0x01 != 0
        min_delay := ! (b1 &&& 0x10 != 0) }

/-- Result of `W800rf32._parse_standard_x10`: unit is absent for the
dim and bright commands. -/
structure X10StdEv where
  house_code : Char
  command : String
  unit : Option Nat
  deriving Repr, DecidableEq

/-- `W800rf32._parse_standard_x10` from `src/w800lib/__init__.py`. -/
def parseStandardX10 (byte0 byte1 byte2 byte3 : Nat) : Option X10StdEv :=
  if byte0 ≠ (byte1 ^^^ 0xFF) ∨ byte2 ≠ (byte3 ^^^ 0xFF) then none
  else
    let house_code := Char.ofNat (65 + ((byte0 &&& 0xF0) >>> 4))
    let unit := byte0 &&& 0x0F
    if byte2 &&& 0x20 != 0 then
      if byte2 &&& 0x10 != 0 then some ⟨house_code, "bright", none⟩
      else some ⟨house_code, "dim", none⟩
    else
      if byte2 &&& 0x08 != 0 then some ⟨house_code, "on", some (unit + 1)⟩
      else some ⟨house_code, "off", some (unit + 1)⟩

/-- Event union produced by `W800rf32._process_packet`. -/
inductive W800Event where
  | security (e : SecEv)
  | x10 (e : X10StdEv)
  deriving Repr, DecidableEq

/-- `W800rf32._process_packet` from `src/w800lib/__init__.py`: length
guard, then the w800lib security parser, falling back to the simplified
X10 parser. -/
def processPacket (data : List Nat) : Option W800Event :=
  if data.length ≠ 4 then none
  else
    match w800SecurityParse data with
    | some e => some (W800Event.security e)
    | none =>
      (parseStandardX10 (data.getD 0 0) (data.getD 1 0)
        (data.getD 2 0) (data.getD 3 0)).map W800Event.x10

/-- Event union dispatched by the `read_loop` in `src/__init__.py`. -/
inductive MainEvent where
  | security (e : SecEv)
  | x10 (e : X10Ev)
  deriving Repr, DecidableEq

/-- The per-frame routing of `read_loop` in `src/__init__.py`: the main
security parser first (a returned dict is non-empty, hence truthy), then
`X10Event`, whose `ValueError` is swallowed into no event. -/
def readLoopRoute (data : List Nat) : Option MainEvent :=
  match securityParse data with
  | some e => some (MainEvent.security e)
  | none =>
    match decodeX10 data with
    | Except.ok ev => some (MainEvent.x10 ev)
    | Except.error _ => none



deriving instance DecidableEq for Except

/-- A character that is a lowercase hexadecimal digit. -/
def isLowerHexDigit (c : Char) : Bool :=
  (decide (48 ≤ c.toNat) && decide (c.toNat ≤ 57)) ||
  (decide (97 ≤ c.toNat) && decide (c.toNat ≤ 102))

theorem reverseBits8_lt (x : Nat) : reverseBits8 x < 256 := by
  have hbit : ∀ i k : Nat, k ≤ 7 → ((x >>> i) &&& 1) <<< k < 2 ^ 8 := by
    intro i k hk
    have h1 : (x >>> i) &&& 1 ≤ 1 := Nat.and_le_right
    have h2 : (2 : Nat) ^ k ≤ 2 ^ 7 := Nat.pow_le_pow_right (by norm_num) hk
    rw [Nat.shiftLeft_eq]
    have := Nat.mul_le_mul h1 h2
    norm_num at this ⊢
    omega
  have : reverseBits8 x < 2 ^ 8 := by
    unfold reverseBits8
    repeat' apply Nat.or_lt_two_pow
    all_goals exact hbit _ _ (by norm_num)
  norm_num at this
  exact this

theorem xor255_eq (d : Nat) (h : d < 256) : d ^^^ 0xFF = 255 - d := by
  revert h
  revert d
  decide

theorem format02x_wellformed : ∀ n < 256,
    (format02x n).length = 2 ∧ (format02x n).data.all isLowerHexDigit = true := by
  decide

theorem secAddress_lt (b0 b1 : Nat) : ((b0 &&& 0x0F) <<< 4) ||| (b1 &&& 0x0F) < 256 := by
  have h0 : b0 &&& 0x0F ≤ 15 := Nat.and_le_right
  have h1 : b1 &&& 0x0F ≤ 15 := Nat.and_le_right
  have h2 : (b0 &&& 0x0F) <<< 4 < 2 ^ 8 := by
    rw [Nat.shiftLeft_eq]
    norm_num
    omega
  have h3 : b1 &&& 0x0F < 2 ^ 8 := by norm_num; omega
  have := Nat.or_lt_two_pow h2 h3
  norm_num at this
  exact this

theorem security_candidate_checksum_aux (b0 b1 b2 b3 : Nat) (h0 : b0 < 256)
    (hsec : isSecurityPacket [b0, b1, b2, b3] = true) : b0 + b1 ≠ 0xFF := by
  intro hsum
  have hnib : ∀ b < 256, ((b >>> 4) &&& 0x0F) ≠ (((255 - b) >>> 4) &&& 0x0F) := by decide
  have hb1 : b1 = 255 - b0 := by omega
  unfold isSecurityPacket at hsec
  simp only [List.length_cons, List.length_nil, List.getD_cons_zero, List.getD_cons_succ] at hsec
  norm_num at hsec
  rw [hb1] at hsec
  exact hnib b0 h0 hsec

/-- Claim C8 (confirmed): the 8-bit bit-reversal transform used by the X10
decoder is self-inverse on 0..255. -/
theorem reverseBits8_involutive (x : Nat) (h : x < 256) :
    reverseBits8 (reverseBits8 x) = x := by
  have : ∀ y < 256, reverseBits8 (reverseBits8 y) = y := by decide
  exact this x h

/-- Witness for C8 at x = 0xB0 (the spec's example byte). -/
theorem reverseBits8_involutive_witness :
    0xB0 < 256 ∧ reverseBits8 (reverseBits8 0xB0) = 0xB0 :=
  ⟨by decide, reverseBits8_involutive 0xB0 (by decide)⟩

/-- Claim C9 (confirmed): the two X10 decoding pipelines disagree on the
checksum-valid frame 06 F9 00 FF — the table-driven decoder yields house
M, unit 9, command On, while the simplified decoder yields house A,
command off, unit 7. -/
theorem dual_x10_pipelines_differ :
    decodeX10 [0x06, 0xF9, 0x00, 0xFF] = Except.ok ⟨'M', 9, some "On"⟩ ∧
    parseStandardX10 0x06 0xF9 0x00 0xFF = some ⟨'A', "off", some 7⟩ ∧
    ('M' : Char) ≠ 'A' ∧ (9 : Nat) ≠ 7 := by
  refine ⟨by decide, by decide, by decide, by decide⟩

/-- Claim C3 (code_bug evidence): on the security frame 11 10 00 00, whose
byte 2 has bit 4 clear, the w800lib parser reports min_delay = false
because it reads bit 4 of byte 1, while the main parser (reading byte 2)
reports min_delay = true. -/
theorem w800_min_delay_byte1_divergence :
    ((0x00 : Nat) &&& 0x10 = 0) ∧
    w800SecurityParse [0x11, 0x10, 0x00, 0x00] =
      some ⟨"ds10a", "10", "open", false, false⟩ ∧
    securityParse [0x11, 0x10, 0x00, 0x00] =
      some ⟨"ds10a", "10", "open", false, true⟩ := by
  refine ⟨by decide, by decide, by decide⟩

/-- Counterexample for C1: the frame 00 FF 80 7F is checksum-valid, its
bit-reversed command byte is 0x01 (neither 0x19 nor 0x11, and 0x01 and 5
is 1, outside the supported set), yet decodeX10 succeeds, returning an
event with command none instead of failing. -/
theorem decodeX10_unsupported_command_counterexample :
    (0x00 + 0xFF = 0xFF ∧ 0x80 + 0x7F = 0xFF) ∧
    reverseBits8 0x80 ≠ 0x19 ∧ reverseBits8 0x80 ≠ 0x11 ∧
    reverseBits8 0x80 &&& 0x05 ≠ 0 ∧ reverseBits8 0x80 &&& 0x05 ≠ 4 ∧
    decodeX10 [0x00, 0xFF, 0x80, 0x7F] = Except.ok ⟨'M', 1, none⟩ := by
  refine ⟨by decide, by decide, by decide, by decide, by decide, by decide⟩

/-- Counterexample for C2: the checksum-valid frame 00 FF 5F A0 decodes
with command On and unit 36, outside 1..16. -/
theorem decodeX10_unit_range_counterexample :
    decodeX10 [0x00, 0xFF, 0x5F, 0xA0] = Except.ok ⟨'M', 36, some "On"⟩ ∧
    ¬ (36 ≤ 16) := by
  refine ⟨by decide, by decide⟩

/-- Counterexample for C4: byte 2 of frame 11 10 40 00 has bit 6 set,
outside mask 0x85, yet the w800lib security parser returns an event. -/
theorem w800SecurityParse_mask_counterexample :
    andNot 0x40 0x85 ≠ 0 ∧
    w800SecurityParse [0x11, 0x10, 0x40, 0x00] =
      some ⟨"ds10a", "10", "open", false, false⟩ := by
  refine ⟨by decide, by decide⟩

/-- Counterexample for C7: no 4-byte frame is simultaneously a security
candidate (matching high nibbles of bytes 0 and 1) and X10
checksum-valid; the claimed witness does not exist. -/
theorem security_checksum_nonexclusive_counterexample :
    ¬ ∃ b0 b1 b2 b3 : Nat, b0 < 256 ∧ b1 < 256 ∧ b2 < 256 ∧ b3 < 256 ∧
      isSecurityPacket [b0, b1, b2, b3] = true ∧ b0 + b1 = 0xFF ∧ b2 + b3 = 0xFF := by
  rintro ⟨b0, b1, b2, b3, h0, h1, h2, h3, hsec, hck1, hck2⟩
  exact security_candidate_checksum_aux b0 b1 b2 b3 h0 hsec hck1

/-- Claim C7 as amended: security classification and X10 checksum
validity are mutually exclusive — a security candidate never satisfies
the byte 0 / byte 1 checksum pair. -/
theorem security_checksum_exclusive (b0 b1 b2 b3 : Nat) (h0 : b0 < 256)
    (hsec : isSecurityPacket [b0, b1, b2, b3] = true) :
    ¬ (b0 + b1 = 0xFF ∧ b2 + b3 = 0xFF) := by
  rintro ⟨hck, -⟩
  exact security_candidate_checksum_aux b0 b1 b2 b3 h0 hsec hck

/-- Witness for the amended C7 at the valid security frame 56 55 81 00. -/
theorem security_checksum_exclusive_witness :
    ¬ ((0x56 : Nat) + 0x55 = 0xFF ∧ (0x81 : Nat) + 0x00 = 0xFF) :=
  security_checksum_exclusive 0x56 0x55 0x81 0x00 (by decide) (by decide)

/-- Claim C1 as amended: on a checksum-valid frame whose bit-reversed
command byte is unsupported, decodeX10 succeeds and returns an event
whose command is none (it does not fail). -/
theorem decodeX10_unsupported_command_ok_none (data : List Nat)
    (h4 : data.length = 4)
    (hck1 : data.getD 0 0 + data.getD 1 0 = 0xFF)
    (hck2 : data.getD 2 0 + data.getD 3 0 = 0xFF)
    (h19 : reverseBits8 (data.getD 2 0) ≠ 0x19)
    (h11 : reverseBits8 (data.getD 2 0) ≠ 0x11)
    (ha : reverseBits8 (data.getD 2 0) &&& 0x05 ≠ 4)
    (hb : reverseBits8 (data.getD 2 0) &&& 0x05 ≠ 0) :
    ∃ ev, decodeX10 data = Except.ok ev ∧ ev.command = none := by
  refine ⟨getX10CodeAndCmd (data.getD 0 0) (data.getD 2 0), ?_, ?_⟩
  · unfold decodeX10
    rw [if_neg (by omega), if_neg (by tauto)]
  · unfold getX10CodeAndCmd
    simp only [if_neg h19, if_neg h11, if_neg ha, if_neg hb]

/-- Witness for C1 at the frame 00 FF 80 7F. -/
theorem decodeX10_unsupported_command_ok_none_witness :
    ∃ ev, decodeX10 [0x00, 0xFF, 0x80, 0x7F] = Except.ok ev ∧ ev.command = none :=
  decodeX10_unsupported_command_ok_none [0x00, 0xFF, 0x80, 0x7F]
    (by decide) (by decide) (by decide) (by decide) (by decide) (by decide) (by decide)

theorem getX10_unit_bounds_aux (a c : Nat) :
    1 ≤ (getX10CodeAndCmd a c).unit ∧
    ((getX10CodeAndCmd a c).command.isSome = true → (getX10CodeAndCmd a c).unit ≤ 44) := by
  have hb1 : reverseBits8 c < 256 := reverseBits8_lt c
  have hy : (reverseBits8 a &&& 0x20) >>> 2 ≤ 8 := by
    have h1 : reverseBits8 a &&& 0x20 ≤ 0x20 := Nat.and_le_right
    rw [Nat.shiftRight_eq_div_pow]
    exact le_trans (Nat.div_le_div_right h1) (by norm_num)
  have hx : reverseBits8 c >>> 3 ≤ 31 := by
    rw [Nat.shiftRight_eq_div_pow]
    refine le_trans (Nat.div_le_div_right (Nat.lt_succ_iff.mp hb1)) (by norm_num)
  have hx1 : (reverseBits8 c &&& 0x02) <<< 1 ≤ 4 := by
    rw [Nat.shiftLeft_eq]
    have h2 : reverseBits8 c &&& 0x02 ≤ 2 := Nat.and_le_right
    omega
  unfold getX10CodeAndCmd
  dsimp only
  split_ifs with h1 h2 h3 h4 <;> dsimp only <;> constructor
  · omega
  · intro _
    rw [h1] at hx hx1 ⊢
    omega
  · omega
  · intro _
    have e1 : (0x11 : Nat) >>> 3 = 2 := by decide
    have e2 : ((0x11 : Nat) &&& 0x02) <<< 1 = 0 := by decide
    rw [h2, e1, e2]
    omega
  · omega
  · intro _
    omega
  · omega
  · intro _
    omega
  · omega
  · simp

/-- Claim C2 as amended: every event decodeX10 produces with a command
has its unit number in 1..44 (not 1..16: the term r2 shifted right by 3
alone reaches 31). -/
theorem decodeX10_unit_bounds (data : List Nat) (ev : X10Ev)
    (hok : decodeX10 data = Except.ok ev) (hcmd : ev.command.isSome = true) :
    1 ≤ ev.unit ∧ ev.unit ≤ 44 := by
  unfold decodeX10 at hok
  split at hok
  · exact absurd hok (by simp)
  · split at hok
    · exact absurd hok (by simp)
    · injection hok with h
      subst h
      exact ⟨(getX10_unit_bounds_aux _ _).1, (getX10_unit_bounds_aux _ _).2 hcmd⟩

/-- Witness for C2 at the frame 04 FB 7F 80, which attains unit 44. -/
theorem decodeX10_unit_bounds_witness :
    1 ≤ (X10Ev.mk 'M' 44 (some "Off")).unit ∧ (X10Ev.mk 'M' 44 (some "Off")).unit ≤ 44 :=
  decodeX10_unit_bounds [0x04, 0xFB, 0x7F, 0x80] (X10Ev.mk 'M' 44 (some "Off"))
    (by decide) (by decide)

/-- Claim C4 as amended: the main security parser (src/__init__.py)
returns none whenever byte 2 has a bit set outside mask 0x85; the
embedded w800lib copy performs no such check. -/
theorem securityParse_mask_reject (data : List Nat)
    (h : andNot (data.getD 2 0) 0x85 ≠ 0) : securityParse data = none := by
  unfold securityParse
  dsimp only
  split_ifs with h1
  · rfl
  · rfl

/-- Witness for C4 at the frame 11 10 40 00. -/
theorem securityParse_mask_reject_witness :
    securityParse [0x11, 0x10, 0x40, 0x00] = none :=
  securityParse_mask_reject [0x11, 0x10, 0x40, 0x00] (by decide)

/-- Claim C5 (confirmed): a 4-byte frame is rejected by decodeX10 exactly
when its checksum pairs fail, and the simplified w800lib decoder agrees:
its xor test accepts exactly the frames whose byte sums are 0xFF. -/
theorem x10_checksum_iff (b0 b1 b2 b3 : Nat)
    (h0 : b0 < 256) (h1 : b1 < 256) (h2 : b2 < 256) (h3 : b3 < 256) :
    ((∃ e, decodeX10 [b0, b1, b2, b3] = Except.error e) ↔
      ¬ (b0 + b1 = 0xFF ∧ b2 + b3 = 0xFF)) ∧
    ((∃ ev, decodeX10 [b0, b1, b2, b3] = Except.ok ev) ↔
      (b0 + b1 = 0xFF ∧ b2 + b3 = 0xFF)) ∧
    ((∃ ev, parseStandardX10 b0 b1 b2 b3 = some ev) ↔
      (b0 + b1 = 0xFF ∧ b2 + b3 = 0xFF)) := by
  have hx1 : b1 ^^^ 0xFF = 255 - b1 := xor255_eq b1 h1
  have hx3 : b3 ^^^ 0xFF = 255 - b3 := xor255_eq b3 h3
  unfold decodeX10 parseStandardX10
  simp only [List.getD_cons_zero, List.getD_cons_succ, List.length_cons, List.length_nil]
  rw [hx1, hx3]
  norm_num
  by_cases hA : b0 + b1 = 255 <;> by_cases hB : b2 + b3 = 255
  · have e0 : b0 = 255 - b1 := by omega
    have e2 : b2 = 255 - b3 := by omega
    have f1 : 255 - b1 + b1 = 255 := by omega
    have f3 : 255 - b3 + b3 = 255 := by omega
    simp only [hA, hB, e0, e2, f1, f3]
    norm_num
    split_ifs <;> simp
  · have e0 : b0 = 255 - b1 := by omega
    have e2 : b2 ≠ 255 - b3 := by omega
    simp [hA, hB, e0, e2]
  · have e0 : b0 ≠ 255 - b1 := by omega
    simp [hA, hB, e0]
  · have e0 : b0 ≠ 255 - b1 := by omega
    simp [hA, hB, e0]

/-- Witness for C5 at the checksum-valid frame 06 F9 00 FF. -/
theorem x10_checksum_iff_witness :
    ∃ ev, decodeX10 [0x06, 0xF9, 0x00, 0xFF] = Except.ok ev :=
  ((x10_checksum_iff 0x06 0xF9 0x00 0xFF (by decide) (by decide) (by decide)
    (by decide)).2.1).mpr (by decide)

/-- Claim C6 (confirmed): both routers give the security parser
precedence — when it returns an event, that security event is the
routed result and no X10 event can be emitted for the frame. -/
theorem router_security_precedence (data : List Nat) :
    (∀ e, securityParse data = some e →
      readLoopRoute data = some (MainEvent.security e) ∧
      ∀ ev, readLoopRoute data ≠ some (MainEvent.x10 ev)) ∧
    (∀ e, w800SecurityParse data = some e →
      processPacket data = some (W800Event.security e) ∧
      ∀ ev, processPacket data ≠ some (W800Event.x10 ev)) := by
  constructor
  · intro e he
    have hroute : readLoopRoute data = some (MainEvent.security e) := by
      unfold readLoopRoute
      rw [he]
    refine ⟨hroute, fun ev hx => ?_⟩
    rw [hroute] at hx
    simp at hx
  · intro e he
    have hsec : isSecurityPacket data = true := by
      by_contra hns
      unfold w800SecurityParse at he
      rw [if_pos (by simp [hns])] at he
      cases he
    have hlen : data.length = 4 := by
      by_contra hne
      unfold isSecurityPacket at hsec
      rw [if_pos hne] at hsec
      cases hsec
    have hproc : processPacket data = some (W800Event.security e) := by
      unfold processPacket
      rw [if_neg (by omega), he]
    refine ⟨hproc, fun ev hx => ?_⟩
    rw [hproc] at hx
    simp at hx

/-- Witness for C6 at the security frame 56 55 81 00, on which the two
security parsers return events differing only in min_delay. -/
theorem router_security_precedence_witness :
    readLoopRoute [0x56, 0x55, 0x81, 0x00] =
      some (MainEvent.security ⟨"ds10a", "65", "closed", true, true⟩) ∧
    processPacket [0x56, 0x55, 0x81, 0x00] =
      some (W800Event.security ⟨"ds10a", "65", "closed", true, false⟩) :=
  ⟨((router_security_precedence [0x56, 0x55, 0x81, 0x00]).1 _ (by decide)).1,
   ((router_security_precedence [0x56, 0x55, 0x81, 0x00]).2 _ (by decide)).1⟩

/-- Claim C10 (confirmed): both security parsers are total — any input
whose length is not 4 yields none, and any returned event is fully
populated, with the address rendered as exactly two lowercase hex
digits. -/
theorem securityParse_total_wellformed (data : List Nat) :
    (data.length ≠ 4 → securityParse data = none ∧ w800SecurityParse data = none) ∧
    (∀ ev, securityParse data = some ev ∨ w800SecurityParse data = some ev →
      ev.device_type = "ds10a" ∧ (ev.state = "open" ∨ ev.state = "closed") ∧
      ev.address.length = 2 ∧ ev.address.data.all isLowerHexDigit = true) := by
  have haddr := secAddress_lt (data.getD 0 0) (data.getD 1 0)
  have hfmt := format02x_wellformed _ haddr
  constructor
  · intro hlen
    have hsec : ¬ (isSecurityPacket data = true) := by simp [isSecurityPacket, hlen]
    exact ⟨by unfold securityParse; rw [if_pos hsec],
           by unfold w800SecurityParse; rw [if_pos hsec]⟩
  · intro ev hev
    rcases hev with h | h
    · unfold securityParse at h
      dsimp only at h
      split_ifs at h with h1 h2
      · injection h with h
        subst h
        exact ⟨rfl, by simp, hfmt.1, hfmt.2⟩
      · injection h with h
        subst h
        exact ⟨rfl, by simp, hfmt.1, hfmt.2⟩
    · unfold w800SecurityParse at h
      dsimp only at h
      split_ifs at h with h1
      · injection h with h
        subst h
        exact ⟨rfl, by simp, hfmt.1, hfmt.2⟩
      · injection h with h
        subst h
        exact ⟨rfl, by simp, hfmt.1, hfmt.2⟩

/-- Witness for C10: a 2-byte input yields none from both parsers, and
the event parsed from the frame 56 55 81 00 is well-formed. -/
theorem securityParse_total_wellformed_witness :
    (securityParse [0x12, 0x34] = none ∧ w800SecurityParse [0x12, 0x34] = none) ∧
    ((SecEv.mk "ds10a" "65" "closed" true true).address.length = 2 ∧
     (SecEv.mk "ds10a" "65" "closed" true true).address.data.all isLowerHexDigit = true) :=
  ⟨(securityParse_total_wellformed [0x12, 0x34]).1 (by decide),
   (((securityParse_total_wellformed [0x56, 0x55, 0x81, 0x00]).2
      (SecEv.mk "ds10a" "65" "closed" true true) (Or.inl (by decide))).2.2)⟩

end W800
